import Mathlib

/-!
Shallow embedding of the prompt-orchestration core of `bbot.py`
(marketing-genie-assistant).

The Python program keeps a single global dict `conversation_state` and
mutates it from Flask route handlers and one background batch thread.
Here every handler is a pure function from the state (plus the posted
form parameters) to a result and a new state; the external chat API
(the `requests.post` transport inside `get_chatgpt_response`) is a
parameter `tr : List Turn → String → Except String String` mapping the
message list and model either to the returned content (`.ok`) or to the
text of the raised exception (`.error`).  The background thread body
`process_all_scripted_prompts` is embedded as a separate state
transformer; `next_step` records whether it started that thread in a
`launchedBatch` flag instead of running it inline, which is the honest
sequential picture of `threading.Thread(...).start()`.  `time.sleep(1)`
has no observable state effect and is dropped.
-/

/-- One chat turn, `{"role": ..., "content": ...}` in the Python dicts. -/
structure Turn where
  role : String
  content : String
deriving DecidableEq, Repr

/-- The fields of the global `conversation_state` dict (bbot.py lines
171-180).  `step` keeps the source's numeric coding: 0 = start,
1 = niche (AwaitingNiche), 2 = offer (AwaitingOffer), 3 = processing
(Running), 4 = complete. -/
structure ConversationState where
  history : List Turn
  step : Nat
  model : String
  final_response : Option String
  current_prompt : Nat
  progress : Nat
  status : String
  is_processing : Bool
deriving DecidableEq, Repr

/-- `AVAILABLE_MODELS` (bbot.py line 20). -/
def AVAILABLE_MODELS : List String :=
  ["gpt-4o", "gpt-4-turbo", "gpt-4", "gpt-3.5-turbo"]

/-- `INITIAL_PROMPT` (bbot.py lines 23-38). -/
def INITIAL_PROMPT : String :=
  "You are an expert in writing, copywriting, marketing, market research, offer creation, and behavioral psychology. Your job is to write a compelling document for my desired target audience.\n\nThe ultimate goal is to profoundly understand my market and develop world-class messaging, which will give me the strategic positioning needed to dominate and scale this market.\n\nTo do this, I will give you the following:\n\n1. My Target Niche\n2. My previous thoughts and understanding of that niche\n3. Context about my company and my offering to this niche\n4. Market study questions\n5. Competitive Analysis questions\n6. Offer Value questions for my product\n\nYou write in a conversational, jargon-free tone that a 10-year-old would understand. Be conversational and plain.\n\nSounds good?"

/-- First entry of `INTERACTIVE_PROMPT_TEMPLATES` (bbot.py lines 42-46),
with Python's `.format(user_input)` applied: `\x7b0\x7d` is replaced by
the user input at both occurrences. -/
def interactive_prompt_template_0 (user_input : String) : String :=
  "Great\n1. My target niche: This time, I\x27m aiming to reach out to **" ++ user_input ++
  "**\n2. My previous thoughts and understanding of this niche: **" ++ user_input ++
  "**\nI can provide you with the context about my company if this is clear. \nSounds good?"

/-- Second entry of `INTERACTIVE_PROMPT_TEMPLATES` (bbot.py line 48),
with `.format(user_input)` applied. -/
def interactive_prompt_template_1 (user_input : String) : String :=
  "Now, some context about my company and my offer to this niche, **" ++ user_input ++ "**"

/-- `SCRIPTED_PROMPTS` (bbot.py lines 51-151): the eleven fixed batch
prompts, transcribed verbatim (trailing spaces of the source included). -/
def SCRIPTED_PROMPTS : List String :=
  [ "**Market Study: Demographics**\nPlease provide general demographics data about my target audience:\n* Gender\n* Age\n* Income\n* Geographic Location (Lifestyle)"
  , "**Market Study: Pain Points**\nWhat are the demonetized pain points, desires, and objections?\n- What Do They See? \n- What do they hear?\n- What do they think & feel?\n- What do they see & do?\n- Pains, Frustrations, Fears, Problems\n- Dreams, Desires, Hopes, Wants, Needs \n- Objections"
  , "**Market Study: Desires**\n- List the mass desires of this target market.\n- Select the broadest one with the most power.\n- List the product performance that satisfies that desire.\n- Pick the ONE product performance that is unique and powerfully fulfills the desire."
  , "**Market Sophistication & Awareness**\nIdentify the level of market awareness for my offer:\n1. Most aware (know product name and price)\n2. Product Aware (know product but not price)\n3. Solution aware (know possible solution exists)\n4. Problem aware (may or may not know they have problem)\n5. Unaware (completely new market)"
  , "**Competitor Analysis**\nSearch for my top 3 competitors that have a similar offer to this niche:\n1. \n2.\n3,"
  , "**Competitor Positioning**\nFor each competitor:\n1. What is their product/service positioning?\n2. What are the deliverables? \n3. Price point? \n4. Payment terms? \n5. Bonuses? \n6. Guarantees/Risk Reversals?"
  , "**Competitor Messaging**\nCommon headlines competitors are using:\n1.\n2.\n3,\nHow do competitors position themselves?\n1,\n2,\n3,\nWhat is their unique selling proposition?\n1,\n2,\n3,\nWhat promises and claims are they making?\n1,\n2,\n3,"
  , "**Competitor Mechanisms**\nWhat unique mechanisms are competitors using?\n1,\n2,\n3,\nWhat are people saying in testimonials?\n1,\n2,\n3,\nTop sites competitors are advertising on:\n1,\n2,\n3,"
  , "**Offer Appeal**\nCategorize my company\x27s appeal:\n1. Sex appeal (relationships, social acceptance)\n2. Greed (things money can buy)\n3. Fear (of losing or not gaining)\n4. Duty/honor (what\x27s best for people served)"
  , "**Unique Selling Proposition**\nEstablish my USP aligned with current offering:\n- Most powerful benefit with emotional pulling power\n- Current biggest growing trends in market\n- How to position as unique characteristic\n- How to communicate clearly and concisely\n- Can I create a \"new category\" or niche down?"
  , "**Compiling Final Document**\nCompile all responses into a comprehensive marketing strategy document with:\n1. Target Niche Analysis\n2. Competitive Landscape\n3. Offer Positioning & Strategic Advantage\nWrite in clear, plain, powerful language with bullet points where needed."
  ]

/-- `PROMPT_NAMES` (bbot.py lines 153-165). -/
def PROMPT_NAMES : List String :=
  [ "Collecting Demographic Data"
  , "Analyzing Pain Points"
  , "Identifying Market Desires"
  , "Assessing Market Awareness"
  , "Finding Competitors"
  , "Analyzing Competitor Positioning"
  , "Studying Competitor Messaging"
  , "Examining Competitor Mechanisms"
  , "Defining Our Appeal"
  , "Crafting Unique Selling Proposition"
  , "Compiling Final Strategy Document"
  ]

/-- The compilation prompt sent by the final call of
`process_all_scripted_prompts` (bbot.py line 224). -/
def FINAL_COMPILATION_PROMPT : String :=
  "Compile all previous responses into a comprehensive marketing strategy document with clear sections."

/-- The initial value of `conversation_state` (bbot.py lines 171-180). -/
def conversation_state : ConversationState :=
  { history := []
  , step := 0
  , model := AVAILABLE_MODELS.getD 0 ""
  , final_response := none
  , current_prompt := 0
  , progress := 0
  , status := "Ready to start"
  , is_processing := false }

/-- The transport underneath `get_chatgpt_response`: given the message
list and the model, either the content extracted from the API response
(`.ok`) or the string of the exception raised by `requests.post` /
`raise_for_status` / JSON access (`.error`). -/
abbrev Transport := List Turn → String → Except String String

/-- `get_chatgpt_response` (bbot.py lines 182-200).  Builds
`messages = history + [user prompt]` (for `history = None` or `[]` the
Python conditional yields just `[user prompt]`, which coincides with
`[] ++ [user prompt]`) and converts any failure into the literal text
`"Error: " ++ e` instead of raising. -/
def get_chatgpt_response (tr : Transport) (prompt model : String)
    (history : List Turn) : String :=
  let messages := history ++ [⟨"user", prompt⟩]
  match tr messages model with
  | Except.ok content => content
  | Except.error e => "Error: " ++ e

/-- What one iteration of the batch loop wrote and received: the entry
index, the status label and progress value stored before the call, the
prompt sent, and the (possibly error-text) reply. -/
structure BatchRecord where
  index : Nat
  statusLabel : String
  progressValue : Nat
  promptText : String
  responseText : String
deriving DecidableEq, Repr

/-- One iteration of the `for i, prompt in enumerate(SCRIPTED_PROMPTS)`
loop (bbot.py lines 207-219): store index, label and
`int(i / len(SCRIPTED_PROMPTS)) * 100` (float division truncated, i.e.
Nat division here), call the chat client with the accumulated history,
append the user/assistant pair.  Also returns the iteration's record. -/
def runScriptedStep (tr : Transport) (s : ConversationState)
    (i : Nat) (prompt : String) : ConversationState × BatchRecord :=
  let s1 := { s with current_prompt := i
                   , status := PROMPT_NAMES.getD i ""
                   , progress := (i / SCRIPTED_PROMPTS.length) * 100 }
  let response := get_chatgpt_response tr prompt s1.model s1.history
  ( { s1 with history := s1.history ++ [⟨"user", prompt⟩, ⟨"assistant", response⟩] }
  , { index := i
    , statusLabel := PROMPT_NAMES.getD i ""
    , progressValue := (i / SCRIPTED_PROMPTS.length) * 100
    , promptText := prompt
    , responseText := response } )

/-- The whole enumerated loop, over an arbitrary index/prompt list,
returning the final state and the per-iteration trace. -/
def runScriptedLoop (tr : Transport) :
    List (Nat × String) → ConversationState → ConversationState × List BatchRecord
  | [], s => (s, [])
  | ip :: rest, s =>
      ( (runScriptedLoop tr rest (runScriptedStep tr s ip.1 ip.2).1).1
      , (runScriptedStep tr s ip.1 ip.2).2 ::
          (runScriptedLoop tr rest (runScriptedStep tr s ip.1 ip.2).1).2 )

/-- The first three assignments of `process_all_scripted_prompts`
(bbot.py lines 203-205): `is_processing = True`, `step = 3`,
`progress = 0`. -/
def startBatchState (s : ConversationState) : ConversationState :=
  { s with is_processing := true, step := 3, progress := 0 }

/-- The state right before the final compilation call: after the loop
over all eleven prompts and the assignment
`status = "Finalizing document"` (bbot.py line 222). -/
def batchStateBeforeFinal (tr : Transport) (s : ConversationState) : ConversationState :=
  { (runScriptedLoop tr SCRIPTED_PROMPTS.enum (startBatchState s)).1 with
      status := "Finalizing document" }

/-- The per-iteration trace of the batch run. -/
def batchTrace (tr : Transport) (s : ConversationState) : List BatchRecord :=
  (runScriptedLoop tr SCRIPTED_PROMPTS.enum (startBatchState s)).2

/-- `process_all_scripted_prompts` (bbot.py lines 202-233): the batch
thread body.  After the loop and the status change it issues the final
compilation call (no turn pair is appended for it) and stores the
result, `step = 4`, `progress = 100`, `status = "Complete"`,
`is_processing = False`. -/
def process_all_scripted_prompts (tr : Transport) (s : ConversationState) :
    ConversationState :=
  let b := batchStateBeforeFinal tr s
  let final := get_chatgpt_response tr FINAL_COMPILATION_PROMPT b.model b.history
  { b with final_response := some final
         , step := 4
         , progress := 100
         , status := "Complete"
         , is_processing := false }

/-- The JSON payload returned by `/start` (bbot.py lines 444-449). -/
structure StartResponse where
  response : String
  step : Nat
  user_prompt : String
  status : String
deriving DecidableEq, Repr

/-- `start_conversation`, the `/start` handler (bbot.py lines 424-449).
`modelParam` is the posted `model` form field; Python's
`request.form.get('model', AVAILABLE_MODELS[0])` substitutes the
default only when the field is absent, so any posted string is stored
verbatim.  The handler resets every field of the global state, issues
`INITIAL_PROMPT` with no history, appends the turn pair and sets
`step = 1`. -/
def start_conversation (tr : Transport) (modelParam : Option String)
    (_s : ConversationState) : StartResponse × ConversationState :=
  let s0 : ConversationState :=
    { history := []
    , step := 0
    , model := modelParam.getD (AVAILABLE_MODELS.getD 0 "")
    , final_response := none
    , current_prompt := 0
    , progress := 0
    , status := "Starting..."
    , is_processing := false }
  let response := get_chatgpt_response tr INITIAL_PROMPT s0.model []
  let s1 := { s0 with
      history := [⟨"user", INITIAL_PROMPT⟩, ⟨"assistant", response⟩]
    , step := 1 }
  ( { response := response
    , step := 1
    , user_prompt := "Please enter your target niche information:"
    , status := s1.status }
  , s1 )

/-- The three JSON shapes returned by `/next` (bbot.py lines 465-470,
485-491, 493). -/
inductive NextResponse where
  | reply (response : String) (step : Nat) (user_prompt : String) (status : String)
  | ack (response : String) (step : Nat) (status : String) (progress : Nat)
      (auto_proceed : Bool)
  | invalid (error : String)
deriving DecidableEq, Repr

/-- Result of the `/next` handler: the JSON payload, the state after the
handler's own (synchronous) mutations, and whether the handler started
the background batch thread. -/
structure NextOutcome where
  response : NextResponse
  state : ConversationState
  launchedBatch : Bool
deriving DecidableEq, Repr

/-- `next_step`, the `/next` handler (bbot.py lines 451-493).  It reads
only the `input` form field (`request.form.get('input', '').strip()`);
the `step` field the page posts is never read — dispatch is on the
server-side `conversation_state['step']`.  In the `step == 2` branch it
appends the turn pair and, when `is_processing` is false, starts the
batch thread (`launchedBatch`); it does not itself change `step`,
`progress` or `is_processing` — the thread body does that. -/
def next_step (tr : Transport) (inputParam _stepToken : Option String)
    (s : ConversationState) : NextOutcome :=
  let user_input := (inputParam.getD "").trim
  if s.step = 1 then
    let prompt := interactive_prompt_template_0 user_input
    let response := get_chatgpt_response tr prompt s.model s.history
    let s1 := { s with
        history := s.history ++ [⟨"user", prompt⟩, ⟨"assistant", response⟩]
      , step := 2 }
    { response := NextResponse.reply response 2
        "Now please provide context about your company and offer:" s1.status
    , state := s1
    , launchedBatch := false }
  else if s.step = 2 then
    let prompt := interactive_prompt_template_1 user_input
    let response := get_chatgpt_response tr prompt s.model s.history
    let s1 := { s with
        history := s.history ++ [⟨"user", prompt⟩, ⟨"assistant", response⟩] }
    { response := NextResponse.ack
        "Great! I\x27m now processing all the marketing research questions. This may take a few minutes..."
        3 "Starting analysis..." 0 false
    , state := s1
    , launchedBatch := !s1.is_processing }
  else
    { response := NextResponse.invalid "Invalid step"
    , state := s
    , launchedBatch := false }

/-- The JSON payload returned by `/progress` (bbot.py lines 495-505). -/
structure ProgressResponse where
  step : Nat
  progress : Nat
  status : String
  current_prompt : Nat
  total_prompts : Nat
  complete : Bool
  is_processing : Bool
deriving DecidableEq, Repr

/-- `get_progress`, the `/progress` handler (bbot.py lines 495-505): a
pure snapshot, the state is untouched. -/
def get_progress (s : ConversationState) : ProgressResponse × ConversationState :=
  ( { step := s.step
    , progress := s.progress
    , status := s.status
    , current_prompt := s.current_prompt
    , total_prompts := SCRIPTED_PROMPTS.length
    , complete := s.step == 4
    , is_processing := s.is_processing }
  , s )

/-- `download`, the `/download` handler (bbot.py lines 507-516).  Python
tests `if not conversation_state['final_response']`, which is true both
for `None` and for the empty string; otherwise it serves the file
`marketing_strategy.txt` with the document text. -/
def download (s : ConversationState) :
    Except String (String × String) × ConversationState :=
  match s.final_response with
  | none => (Except.error "Document not ready yet", s)
  | some doc =>
      if doc = "" then (Except.error "Document not ready yet", s)
      else (Except.ok ("marketing_strategy.txt", doc), s)

/-- `get_final_response`, the `/get_final_response` handler (bbot.py
lines 518-522): 404 unless `step == 4`, else the stored document. -/
def get_final_response (s : ConversationState) :
    Except String (Option String) × ConversationState :=
  if s.step = 4 then (Except.ok s.final_response, s)
  else (Except.error "Document not ready yet", s)

/-- The spec's invariant: `finalDocument` is non-null iff
`step = Complete` (step code 4). -/
def finalDocInv (s : ConversationState) : Prop :=
  s.final_response ≠ none ↔ s.step = 4

instance (s : ConversationState) : Decidable (finalDocInv s) := by
  unfold finalDocInv; infer_instance

/-- A concrete always-succeeding transport, used for witnesses. -/
def okTransport : Transport := fun _ _ => Except.ok "reply text"

/-- A concrete state in the AwaitingOffer phase (step code 2), used for
witnesses and counterexamples. -/
def stateAtOffer : ConversationState := { conversation_state with step := 2 }

/-! Helper lemmas about the batch loop. -/

theorem runScriptedLoop_index_trace (tr : Transport) (l : List (Nat × String))
    (s : ConversationState) :
    ((runScriptedLoop tr l s).2).map (fun r => r.index) = l.map Prod.fst := by
  induction l generalizing s with
  | nil => rfl
  | cons ip rest ih => simp [runScriptedLoop, runScriptedStep, ih]

theorem runScriptedLoop_prompt_trace (tr : Transport) (l : List (Nat × String))
    (s : ConversationState) :
    ((runScriptedLoop tr l s).2).map (fun r => r.promptText) = l.map Prod.snd := by
  induction l generalizing s with
  | nil => rfl
  | cons ip rest ih => simp [runScriptedLoop, runScriptedStep, ih]

theorem runScriptedLoop_progress_trace (tr : Transport) (l : List (Nat × String))
    (s : ConversationState) :
    ((runScriptedLoop tr l s).2).map (fun r => r.progressValue) =
      l.map (fun p => (p.1 / SCRIPTED_PROMPTS.length) * 100) := by
  induction l generalizing s with
  | nil => rfl
  | cons ip rest ih => simp [runScriptedLoop, runScriptedStep, ih]

theorem runScriptedLoop_history (tr : Transport) (l : List (Nat × String))
    (s : ConversationState) :
    (runScriptedLoop tr l s).1.history =
      s.history ++ ((runScriptedLoop tr l s).2.bind fun r =>
        [⟨"user", r.promptText⟩, ⟨"assistant", r.responseText⟩]) := by
  induction l generalizing s with
  | nil => simp [runScriptedLoop]
  | cons ip rest ih => simp [runScriptedLoop, runScriptedStep, ih]

theorem runScriptedLoop_model (tr : Transport) (l : List (Nat × String))
    (s : ConversationState) :
    (runScriptedLoop tr l s).1.model = s.model := by
  induction l generalizing s with
  | nil => rfl
  | cons ip rest ih => simp [runScriptedLoop, runScriptedStep, ih]

theorem runScriptedLoop_step (tr : Transport) (l : List (Nat × String))
    (s : ConversationState) :
    (runScriptedLoop tr l s).1.step = s.step := by
  induction l generalizing s with
  | nil => rfl
  | cons ip rest ih => simp [runScriptedLoop, runScriptedStep, ih]

theorem runScriptedLoop_final_response (tr : Transport) (l : List (Nat × String))
    (s : ConversationState) :
    (runScriptedLoop tr l s).1.final_response = s.final_response := by
  induction l generalizing s with
  | nil => rfl
  | cons ip rest ih => simp [runScriptedLoop, runScriptedStep, ih]

theorem runScriptedLoop_is_processing (tr : Transport) (l : List (Nat × String))
    (s : ConversationState) :
    (runScriptedLoop tr l s).1.is_processing = s.is_processing := by
  induction l generalizing s with
  | nil => rfl
  | cons ip rest ih => simp [runScriptedLoop, runScriptedStep, ih]

theorem runScriptedLoop_progress (tr : Transport) (l : List (Nat × String))
    (s : ConversationState) :
    (runScriptedLoop tr l s).1.progress =
      (l.map (fun p => (p.1 / SCRIPTED_PROMPTS.length) * 100)).getLastD s.progress := by
  induction l generalizing s with
  | nil => rfl
  | cons ip rest ih =>
      rw [show (runScriptedLoop tr (ip :: rest) s).1 =
            (runScriptedLoop tr rest (runScriptedStep tr s ip.1 ip.2).1).1 from rfl,
        ih, List.map_cons, List.getLastD_cons]
      rfl

theorem runScriptedLoop_current_prompt (tr : Transport) (l : List (Nat × String))
    (s : ConversationState) :
    (runScriptedLoop tr l s).1.current_prompt =
      (l.map Prod.fst).getLastD s.current_prompt := by
  induction l generalizing s with
  | nil => rfl
  | cons ip rest ih =>
      rw [show (runScriptedLoop tr (ip :: rest) s).1 =
            (runScriptedLoop tr rest (runScriptedStep tr s ip.1 ip.2).1).1 from rfl,
        ih, List.map_cons, List.getLastD_cons]
      rfl

theorem get_chatgpt_response_const_error (e p m : String) (h : List Turn) :
    get_chatgpt_response (fun _ _ => Except.error e) p m h = "Error: " ++ e := rfl

theorem runScriptedLoop_const_error_history (e : String) (l : List (Nat × String))
    (s : ConversationState) :
    (runScriptedLoop (fun _ _ => Except.error e) l s).1.history =
      s.history ++ (l.bind fun q =>
        [⟨"user", q.2⟩, ⟨"assistant", "Error: " ++ e⟩]) := by
  induction l generalizing s with
  | nil => simp [runScriptedLoop]
  | cons ip rest ih =>
      simp [runScriptedLoop, runScriptedStep, ih, get_chatgpt_response_const_error]

theorem enumFrom_bind_snd {α β : Type} (g : α → List β) (l : List α) (n : Nat) :
    ((l.enumFrom n).bind fun q => g q.2) = l.bind g := by
  induction l generalizing n with
  | nil => rfl
  | cons a rest ih => simp [List.enumFrom, ih]

theorem scripted_enum_fst :
    SCRIPTED_PROMPTS.enum.map Prod.fst = [0, 1, 2, 3, 4, 5, 6, 7, 8, 9, 10] := by
  decide

theorem scripted_enum_progress :
    (SCRIPTED_PROMPTS.enum.map fun p => (p.1 / SCRIPTED_PROMPTS.length) * 100) =
      List.replicate 11 0 := by
  decide

/-! The claims. -/

/-- C1: during the scripted batch run every per-entry progress write
equals `floor(i / 11) * 100`, i.e. 0 for every index `i < 11` (the list
has 11 entries); the state right before the final compilation call still
has progress 0, and progress becomes 100 only with the assignments that
follow the final compilation call. -/
theorem claim_C1 (tr : Transport) (s : ConversationState) :
    SCRIPTED_PROMPTS.length = 11 ∧
    (batchTrace tr s).map (fun r => r.progressValue) =
      (SCRIPTED_PROMPTS.enum.map fun p => (p.1 / SCRIPTED_PROMPTS.length) * 100) ∧
    (batchTrace tr s).map (fun r => r.progressValue) = List.replicate 11 0 ∧
    (batchStateBeforeFinal tr s).progress = 0 ∧
    (process_all_scripted_prompts tr s).progress = 100 := by
  refine ⟨rfl, ?_, ?_, ?_, rfl⟩
  · exact runScriptedLoop_progress_trace tr SCRIPTED_PROMPTS.enum (startBatchState s)
  · rw [batchTrace, runScriptedLoop_progress_trace, scripted_enum_progress]
  · show (runScriptedLoop tr SCRIPTED_PROMPTS.enum (startBatchState s)).1.progress = 0
    rw [runScriptedLoop_progress, scripted_enum_progress]
    rfl

/-- C2 counterexample: posting the unsupported model string
`"not-a-model"` to `/start` stores it verbatim — the stored model is
neither the default `AVAILABLE_MODELS[0]` nor a member of
`AVAILABLE_MODELS`, refuting the claimed fallback. -/
theorem claim_C2_counterexample :
    (start_conversation okTransport (some "not-a-model") conversation_state).2.model
        ∉ AVAILABLE_MODELS ∧
    (start_conversation okTransport (some "not-a-model") conversation_state).2.model
        ≠ AVAILABLE_MODELS.getD 0 "" := by
  decide

/-- C2 amended: `start_conversation` stores the posted model string
verbatim, supported or not; the default identifier `AVAILABLE_MODELS[0]`
is used only when no model parameter is posted at all. -/
theorem claim_C2_amended (tr : Transport) (s : ConversationState) (m : String) :
    (start_conversation tr (some m) s).2.model = m ∧
    (start_conversation tr none s).2.model = AVAILABLE_MODELS.getD 0 "" :=
  ⟨rfl, rfl⟩

/-- C3 counterexample: calling `/next` on a state in the AwaitingOffer
phase (step code 2) does not leave the session with
`step = 3 ∧ progress = 0 ∧ is_processing = true` upon return — the
handler itself leaves `step = 2` and `is_processing = false`; those
fields are only written later by the batch thread body. -/
theorem claim_C3_counterexample :
    ¬ ((next_step okTransport (some "my offer") (some "2") stateAtOffer).state.step = 3 ∧
        (next_step okTransport (some "my offer") (some "2") stateAtOffer).state.progress = 0 ∧
        (next_step okTransport (some "my offer") (some "2") stateAtOffer).state.is_processing
          = true) := by
  decide

/-- C3 amended: when the server-side step is AwaitingOffer (code 2), the
handler appends the user/assistant turn pair, starts the background
batch thread iff `is_processing` is false, and immediately returns the
acknowledgement payload (which reports step Running and progress 0)
without running the batch; the handler leaves the session's `step`,
`progress` and `is_processing` fields untouched, and it is the batch
body's opening assignments (`startBatchState`) that set
`is_processing = true`, `step = 3`, `progress = 0`. -/
theorem claim_C3_amended (tr : Transport) (inp tok : Option String)
    (s : ConversationState) (h : s.step = 2) :
    (next_step tr inp tok s).launchedBatch = !s.is_processing ∧
    (next_step tr inp tok s).response = NextResponse.ack
      "Great! I\x27m now processing all the marketing research questions. This may take a few minutes..."
      3 "Starting analysis..." 0 false ∧
    (next_step tr inp tok s).state.step = s.step ∧
    (next_step tr inp tok s).state.progress = s.progress ∧
    (next_step tr inp tok s).state.is_processing = s.is_processing ∧
    (next_step tr inp tok s).state.history =
      s.history ++
        [⟨"user", interactive_prompt_template_1 ((inp.getD "").trim)⟩,
         ⟨"assistant", get_chatgpt_response tr
            (interactive_prompt_template_1 ((inp.getD "").trim)) s.model s.history⟩] ∧
    (startBatchState (next_step tr inp tok s).state).is_processing = true ∧
    (startBatchState (next_step tr inp tok s).state).step = 3 ∧
    (startBatchState (next_step tr inp tok s).state).progress = 0 := by
  simp [next_step, h, startBatchState]

/-- C3 witness: the amended statement at a concrete AwaitingOffer state. -/
theorem claim_C3_amended_witness :
    stateAtOffer.step = 2 ∧
    (next_step okTransport (some "my offer") (some "2") stateAtOffer).launchedBatch
      = !stateAtOffer.is_processing ∧
    (startBatchState (next_step okTransport (some "my offer") (some "2") stateAtOffer).state).step
      = 3 :=
  ⟨by decide,
   (claim_C3_amended okTransport (some "my offer") (some "2") stateAtOffer (by decide)).1,
   (claim_C3_amended okTransport (some "my offer") (some "2") stateAtOffer
      (by decide)).2.2.2.2.2.2.2.1⟩

/-- C4: the batch visits exactly the 11 scripted entries in list order
(indices 0..10, monotonically), appends one user/assistant pair per
entry, appends nothing for the final compilation call, and ends with
step = 4, progress = 100, current_prompt = 10 and `final_response` equal
to the text returned by the final compilation call. -/
theorem claim_C4 (tr : Transport) (s : ConversationState) :
    (batchTrace tr s).map (fun r => r.index) = [0, 1, 2, 3, 4, 5, 6, 7, 8, 9, 10] ∧
    (batchTrace tr s).map (fun r => r.promptText) = SCRIPTED_PROMPTS ∧
    (process_all_scripted_prompts tr s).history =
      s.history ++ ((batchTrace tr s).bind fun r =>
        [⟨"user", r.promptText⟩, ⟨"assistant", r.responseText⟩]) ∧
    (process_all_scripted_prompts tr s).history = (batchStateBeforeFinal tr s).history ∧
    (process_all_scripted_prompts tr s).step = 4 ∧
    (process_all_scripted_prompts tr s).progress = 100 ∧
    (process_all_scripted_prompts tr s).current_prompt = 10 ∧
    (process_all_scripted_prompts tr s).is_processing = false ∧
    (process_all_scripted_prompts tr s).status = "Complete" ∧
    (process_all_scripted_prompts tr s).final_response =
      some (get_chatgpt_response tr FINAL_COMPILATION_PROMPT
        (batchStateBeforeFinal tr s).model (batchStateBeforeFinal tr s).history) := by
  refine ⟨?_, ?_, ?_, rfl, rfl, rfl, ?_, rfl, rfl, rfl⟩
  · rw [batchTrace, runScriptedLoop_index_trace, scripted_enum_fst]
  · rw [batchTrace, runScriptedLoop_prompt_trace, List.enum_map_snd]
  · show (runScriptedLoop tr SCRIPTED_PROMPTS.enum (startBatchState s)).1.history = _
    rw [runScriptedLoop_history]
    rfl
  · show (runScriptedLoop tr SCRIPTED_PROMPTS.enum (startBatchState s)).1.current_prompt = 10
    rw [runScriptedLoop_current_prompt, scripted_enum_fst]
    rfl

/-- C5: the chat wrapper converts any transport failure into the text
`"Error: " ++ e` instead of raising, and with an always-failing
transport the batch still runs every entry, weaves the error text into
history as ordinary assistant replies, and reaches the complete state
with the error text as the final document. -/
theorem claim_C5 (e p m : String) (hist : List Turn) (s : ConversationState) :
    get_chatgpt_response (fun _ _ => Except.error e) p m hist = "Error: " ++ e ∧
    (process_all_scripted_prompts (fun _ _ => Except.error e) s).step = 4 ∧
    (process_all_scripted_prompts (fun _ _ => Except.error e) s).progress = 100 ∧
    (process_all_scripted_prompts (fun _ _ => Except.error e) s).is_processing = false ∧
    (process_all_scripted_prompts (fun _ _ => Except.error e) s).history =
      s.history ++ (SCRIPTED_PROMPTS.bind fun q =>
        [⟨"user", q⟩, ⟨"assistant", "Error: " ++ e⟩]) ∧
    (process_all_scripted_prompts (fun _ _ => Except.error e) s).final_response =
      some ("Error: " ++ e) := by
  refine ⟨rfl, rfl, rfl, rfl, ?_, rfl⟩
  have h2 : ((SCRIPTED_PROMPTS.enumFrom 0).bind fun q =>
      ([⟨"user", q.2⟩, ⟨"assistant", "Error: " ++ e⟩] : List Turn)) =
      SCRIPTED_PROMPTS.bind fun q => [⟨"user", q⟩, ⟨"assistant", "Error: " ++ e⟩] :=
    enumFrom_bind_snd
      (fun q => ([⟨"user", q⟩, ⟨"assistant", "Error: " ++ e⟩] : List Turn))
      SCRIPTED_PROMPTS 0
  show (runScriptedLoop (fun _ _ => Except.error e) (SCRIPTED_PROMPTS.enumFrom 0)
      (startBatchState s)).1.history = _
  rw [runScriptedLoop_const_error_history, h2]
  rfl

/-- C6: when the server-side step is neither 1 (AwaitingNiche) nor 2
(AwaitingOffer), `/next` returns the Invalid step error, launches
nothing, and the whole session state is returned unchanged. -/
theorem claim_C6 (tr : Transport) (inp tok : Option String) (s : ConversationState)
    (h1 : s.step ≠ 1) (h2 : s.step ≠ 2) :
    next_step tr inp tok s =
      { response := NextResponse.invalid "Invalid step"
      , state := s
      , launchedBatch := false } := by
  simp [next_step, h1, h2]

/-- C6 witness: the invalid-step behaviour at the initial state
(step code 0). -/
theorem claim_C6_witness :
    conversation_state.step ≠ 1 ∧ conversation_state.step ≠ 2 ∧
    next_step okTransport (some "hello") (some "5") conversation_state =
      { response := NextResponse.invalid "Invalid step"
      , state := conversation_state
      , launchedBatch := false } :=
  ⟨by decide, by decide,
   claim_C6 okTransport (some "hello") (some "5") conversation_state
     (by decide) (by decide)⟩

/-- C7: the invariant "final_response is non-null iff step = 4" holds
initially and is preserved by `/start`, `/next` (both Submit phases and
the invalid case), the batch thread body, `/progress` and
`/get_final_response`. -/
theorem claim_C7 :
    finalDocInv conversation_state ∧
    (∀ (tr : Transport) (m : Option String) (s : ConversationState),
      finalDocInv s → finalDocInv (start_conversation tr m s).2) ∧
    (∀ (tr : Transport) (inp tok : Option String) (s : ConversationState),
      finalDocInv s → finalDocInv (next_step tr inp tok s).state) ∧
    (∀ (tr : Transport) (s : ConversationState),
      finalDocInv s → finalDocInv (process_all_scripted_prompts tr s)) ∧
    (∀ s : ConversationState, finalDocInv s → finalDocInv (get_progress s).2) ∧
    (∀ s : ConversationState, finalDocInv s → finalDocInv (get_final_response s).2) := by
  refine ⟨by decide, ?_, ?_, ?_, ?_, ?_⟩
  · intro tr m s _hinv
    simp [start_conversation, finalDocInv]
  · intro tr inp tok s hinv
    by_cases h1 : s.step = 1
    · have hfr : s.final_response = none := by
        cases hs : s.final_response with
        | none => rfl
        | some v =>
            have h4 : s.step = 4 := hinv.mp (by simp [hs])
            rw [h1] at h4
            exact absurd h4 (by decide)
      simp [next_step, h1, finalDocInv, hfr]
    · by_cases h2 : s.step = 2
      · simpa [next_step, h1, h2, finalDocInv] using hinv
      · simpa [next_step, h1, h2, finalDocInv] using hinv
  · intro tr s _hinv
    simp [process_all_scripted_prompts, finalDocInv]
  · intro s h
    exact h
  · intro s h
    unfold get_final_response
    split <;> exact h

/-- C7 witness: the invariant holds at the initial state and after a
full batch run from it. -/
theorem claim_C7_witness :
    finalDocInv (process_all_scripted_prompts okTransport conversation_state) :=
  claim_C7.2.2.2.1 okTransport conversation_state (by decide)

/-- C8: for every supported model, `/start` resets the session, issues
`INITIAL_PROMPT` to the chat client with empty history, stores the
model, and returns with step = 1 and a history of exactly the opening
user turn followed by the assistant reply (length 2). -/
theorem claim_C8 (tr : Transport) (s : ConversationState) (m : String)
    (_hm : m ∈ AVAILABLE_MODELS) :
    (start_conversation tr (some m) s).2.step = 1 ∧
    (start_conversation tr (some m) s).2.history =
      [⟨"user", INITIAL_PROMPT⟩,
       ⟨"assistant", get_chatgpt_response tr INITIAL_PROMPT m []⟩] ∧
    (start_conversation tr (some m) s).2.history.length = 2 ∧
    (start_conversation tr (some m) s).2.model = m ∧
    (start_conversation tr (some m) s).2.final_response = none ∧
    (start_conversation tr (some m) s).2.current_prompt = 0 ∧
    (start_conversation tr (some m) s).2.progress = 0 ∧
    (start_conversation tr (some m) s).2.is_processing = false ∧
    (start_conversation tr (some m) s).1.response =
      get_chatgpt_response tr INITIAL_PROMPT m [] :=
  ⟨rfl, rfl, rfl, rfl, rfl, rfl, rfl, rfl, rfl⟩

/-- C8 witness: the statement at the supported model `"gpt-4o"`. -/
theorem claim_C8_witness :
    "gpt-4o" ∈ AVAILABLE_MODELS ∧
    (start_conversation okTransport (some "gpt-4o") conversation_state).2.step = 1 ∧
    (start_conversation okTransport (some "gpt-4o") conversation_state).2.history.length
      = 2 :=
  ⟨by decide,
   (claim_C8 okTransport conversation_state "gpt-4o" (by decide)).1,
   (claim_C8 okTransport conversation_state "gpt-4o" (by decide)).2.2.1⟩

/-- C9: `/next` never reads the posted step token — two requests that
differ only in that token produce the identical payload, state and
launch decision. -/
theorem claim_C9 (tr : Transport) (inp t1 t2 : Option String)
    (s : ConversationState) :
    next_step tr inp t1 s = next_step tr inp t2 s := rfl

/-- C10: `/download` succeeds iff the stored document is a non-empty
string (Python falsiness of `None` and `""`); when the final
compilation call returns the empty string, the completed session has
step = 4, `/download` still reports the not-ready error, while
`/get_final_response` (which tests step = 4) succeeds and returns the
empty document. -/
theorem claim_C10 (s : ConversationState) :
    ((∃ doc, (download s).1 = Except.ok ("marketing_strategy.txt", doc)) ↔
      (∃ doc, s.final_response = some doc ∧ doc ≠ "")) ∧
    (process_all_scripted_prompts (fun _ _ => Except.ok "") s).step = 4 ∧
    (download (process_all_scripted_prompts (fun _ _ => Except.ok "") s)).1 =
      Except.error "Document not ready yet" ∧
    (get_final_response (process_all_scripted_prompts (fun _ _ => Except.ok "") s)).1 =
      Except.ok (some "") := by
  refine ⟨?_, rfl, rfl, rfl⟩
  cases hs : s.final_response with
  | none => simp [download, hs]
  | some doc =>
      by_cases hd : doc = ""
      · simp [download, hs, hd]
      · simp [download, hs, hd]
